import Mathlib

/-!
Verification of the African Nations League match-simulation and
bracket-progression engine (backend/app.py, backend/email_service.py).

The Python code is shallowly embedded: every random draw of the process-wide
generator is an explicit input.  `random.uniform` / `random.random` draws are
rationals, the rounded `random.gauss` outcome inside `poisson_approx` is an
arbitrary integer (a Gaussian has full support, and the code rounds it to an
integer before clamping), `random.randint(a, b)` reduces a raw natural into
the inclusive interval, and `random.choice` reduces a raw natural modulo the
length of the list.  Loops that Python drives by wall-clock state are given
explicit bounds: the detailed-timeline loop advances its clock by at least two
minutes per iteration so a fuel of 90 is never exhausted, and the penalty
sudden-death loop (which genuinely need not terminate on an adversarial
stream) is fuel-bounded with the whole simulation returning `Option`.
-/

set_option maxRecDepth 10000

namespace ANL

/-- A squad member as stored in team documents: display name and natural
position, one of "GK" / "DF" / "MD" / "AT".  The per-position rating maps are
not consulted by the simulation engine (only the aggregated team rating is),
so they are not part of the embedding. -/
structure Player where
  name : String
  natural_position : String
deriving Repr, DecidableEq

instance : Inhabited Player := ⟨⟨"", ""⟩⟩

/-- A team document: country (its identity), aggregated rating, squad. -/
structure Team where
  country : String
  rating : ℚ
  squad : List Player
deriving Repr, DecidableEq

instance : Inhabited Team := ⟨⟨"", 0, []⟩⟩

/-- One entry of the match event timeline (minute, kind, team, player). -/
structure MatchEvent where
  minute : ℕ
  type : String
  team : String
  player : String
deriving Repr, DecidableEq

/-- One goal-scorer entry (minute, player, team). -/
structure GoalScorer where
  minute : ℕ
  player : String
  team : String
deriving Repr, DecidableEq

/-- The dictionary returned by simulate_match (app.py lines 265-285), minus
the AI commentary / preview strings and the wall-clock timestamp, which come
from external collaborators and carry no simulation content. -/
structure MatchResult where
  team1 : String
  team2 : String
  score : String
  team1_goals : ℕ
  team2_goals : ℕ
  winner : String
  events : List MatchEvent
  goal_scorers : List GoalScorer
  decided_by : Option String
  penalty_score : Option String
  extra_time : Bool
deriving Repr, DecidableEq

instance : Inhabited MatchResult :=
  ⟨⟨"", "", "", 0, 0, "", [], [], none, none, false⟩⟩

/-- random.randint(a, b): an integer uniform on the inclusive interval
[a, b]; the raw draw `n` is reduced into the interval. -/
def randint (a b n : ℕ) : ℕ := a + n % (b - a + 1)

/-- random.choice(l): an element of `l` picked by the raw draw `n`.  Python
raises IndexError on an empty list; the embedding returns the default player
there, so squads are total inputs (the filtered squads are non-empty for every
generated squad: 3 GK, 8 DF, 8 MD, 4 AT). -/
def choice (l : List Player) (n : ℕ) : Player := l.getD (n % l.length) default

/-- The list comprehension `[p for p in squad if p['natural_position'] in
['AT', 'MD']]` used to pick scorers and chance creators. -/
def attackers (t : Team) : List Player :=
  t.squad.filter fun p => p.natural_position == "AT" || p.natural_position == "MD"

/-- The list comprehension selecting the defending side's goalkeepers. -/
def goalkeepers (t : Team) : List Player :=
  t.squad.filter fun p => p.natural_position == "GK"

/-- poisson_approx (app.py lines 92-98): returns 0 when the parameter is
non-positive; otherwise draws `round(gauss(lam, sqrt lam))`, an arbitrary
integer `z`, and clamps it below at 0. -/
def poisson_approx (lam : ℚ) (z : ℤ) : ℕ :=
  if lam ≤ 0 then 0 else (max 0 z).toNat

/-- All random draws consumed by one call of simulate_match, factored by draw
site.  Streams are indexed by how many draws that site has made. -/
structure Oracle where
  /-- random.uniform(-1, 1) for team 1's base expected goals. -/
  u1 : ℚ
  /-- random.uniform(-1, 1) for team 2's base expected goals. -/
  u2 : ℚ
  /-- rounded gauss draw inside poisson_approx for team 1's regulation goals. -/
  z1 : ℤ
  /-- rounded gauss draw inside poisson_approx for team 2's regulation goals. -/
  z2 : ℤ
  /-- timeline loop: raw random.randint(2, 10) clock increments. -/
  inc : ℕ → ℕ
  /-- timeline loop: random.choice([team1_data, team2_data]); true = team 1. -/
  att : ℕ → Bool
  /-- timeline loop: random.random() event-classification roll. -/
  roll : ℕ → ℚ
  /-- timeline loop: raw player pick (at most one choice per iteration). -/
  pick : ℕ → ℕ
  /-- non-detailed scorer synthesis: raw scorer picks for team 1. -/
  nd1pick : ℕ → ℕ
  /-- non-detailed scorer synthesis: raw random.randint(5, 85) for team 1. -/
  nd1min : ℕ → ℕ
  /-- non-detailed scorer synthesis: raw scorer picks for team 2. -/
  nd2pick : ℕ → ℕ
  /-- non-detailed scorer synthesis: raw random.randint(5, 85) for team 2. -/
  nd2min : ℕ → ℕ
  /-- rounded gauss draw for team 1's extra-time goal count. -/
  z3 : ℤ
  /-- rounded gauss draw for team 2's extra-time goal count. -/
  z4 : ℤ
  /-- detailed extra time: raw random.randint(91, 120) minutes for team 1. -/
  et1min : ℕ → ℕ
  /-- detailed extra time: raw scorer picks for team 1. -/
  et1pick : ℕ → ℕ
  /-- detailed extra time: raw random.randint(91, 120) minutes for team 2. -/
  et2min : ℕ → ℕ
  /-- detailed extra time: raw scorer picks for team 2. -/
  et2pick : ℕ → ℕ
  /-- shootout: random.random() draws for team 1 (indices 0-4 are the initial
  phase, 5 onward the sudden-death rounds). -/
  pen1 : ℕ → ℚ
  /-- shootout: random.random() draws for team 2. -/
  pen2 : ℕ → ℚ

/-- The detailed-mode timeline while-loop (app.py lines 119-177).  State:
iteration index `i`, `minute`, and the goals_scored tallies `s1`, `s2` of the
two countries.  Returns the generated events, the generated goal-scorer
entries, and the final tallies.  `fuel` only bounds the recursion: each
iteration that passes the guard advances the clock by at least 2 minutes, so
the fuel of 90 supplied by simulate_match is never exhausted
(`timeline_fuel_stable` below). -/
def timeline (t1 t2 : Team) (g1 g2 : ℕ) (o : Oracle) :
    ℕ → ℕ → ℕ → ℕ → ℕ → List MatchEvent × List GoalScorer × ℕ × ℕ
  | 0, _, _, s1, s2 => ([], [], s1, s2)
  | fuel + 1, i, minute, s1, s2 =>
    if minute < 90 ∧ (s1 < g1 ∨ s2 < g2) then
      let m := minute + randint 2 10 (o.inc i)
      if 90 < m then ([], [], s1, s2)
      else
        let attT := if o.att i then t1 else t2
        let defT := if o.att i then t2 else t1
        let sAtt := if o.att i then s1 else s2
        let gAtt := if o.att i then g1 else g2
        let r := o.roll i
        if r < 1/10 ∧ sAtt < gAtt then
          let scorer := choice (attackers attT) (o.pick i)
          let s1n := if o.att i then s1 + 1 else s1
          let s2n := if o.att i then s2 else s2 + 1
          let rest := timeline t1 t2 g1 g2 o fuel (i + 1) m s1n s2n
          (⟨m, "goal", attT.country, scorer.name⟩ :: rest.1,
           ⟨m, scorer.name, attT.country⟩ :: rest.2.1, rest.2.2)
        else if r < 2/10 then
          let gk := choice (goalkeepers defT) (o.pick i)
          let rest := timeline t1 t2 g1 g2 o fuel (i + 1) m s1 s2
          (⟨m, "save", defT.country, gk.name⟩ :: rest.1, rest.2)
        else if r < 3/10 then
          let att := choice (attackers attT) (o.pick i)
          let rest := timeline t1 t2 g1 g2 o fuel (i + 1) m s1 s2
          (⟨m, "chance", attT.country, att.name⟩ :: rest.1, rest.2)
        else if r < 4/10 then
          let pl := choice attT.squad (o.pick i)
          let rest := timeline t1 t2 g1 g2 o fuel (i + 1) m s1 s2
          (⟨m, "foul", attT.country, pl.name⟩ :: rest.1, rest.2)
        else
          timeline t1 t2 g1 g2 o fuel (i + 1) m s1 s2
    else ([], [], s1, s2)

/-- Ordering of events by minute; `match_events.sort(key=lambda x: x['minute'])`
sorts by this key. -/
def eventLE (a b : MatchEvent) : Prop := a.minute ≤ b.minute

instance : DecidableRel eventLE := fun a b =>
  inferInstanceAs (Decidable (a.minute ≤ b.minute))

instance : IsTotal MatchEvent eventLE := ⟨fun a b => Nat.le_total a.minute b.minute⟩

instance : IsTrans MatchEvent eventLE := ⟨fun _ _ _ => Nat.le_trans⟩

/-- Python's list.sort is a stable sort by the given key; any stable sort
computes the same list, and `List.insertionSort` is Mathlib's stable sort. -/
def sortEvents (evs : List MatchEvent) : List MatchEvent :=
  List.insertionSort eventLE evs

/-- Non-detailed goal-scorer synthesis for one team (app.py lines 182-190):
one entry per regulation goal, scorer drawn from midfielders and attackers,
minute uniform in [5, 85]. -/
def basicScorers (t : Team) (g : ℕ) (pickS minS : ℕ → ℕ) : List GoalScorer :=
  (List.range g).map fun k =>
    ⟨randint 5 85 (minS k), (choice (attackers t) (pickS k)).name, t.country⟩

/-- Detailed-mode extra-time goal events for one team (app.py lines 204-214):
one goal event and one matching goal-scorer entry per extra-time goal, minute
uniform in [91, 120]. -/
def etGoals (t : Team) (extra : ℕ) (minS pickS : ℕ → ℕ) :
    List MatchEvent × List GoalScorer :=
  (((List.range extra).map fun k =>
    ((⟨randint 91 120 (minS k), "goal", t.country,
        (choice (attackers t) (pickS k)).name⟩ : MatchEvent),
     (⟨randint 91 120 (minS k), (choice (attackers t) (pickS k)).name,
        t.country⟩ : GoalScorer)))).unzip

/-- Team 1's penalty success probability (app.py lines 225-226):
clamp(0.75 + (rating1 - rating2)/100, 0.6, 0.9). -/
def penProb1 (t1 t2 : Team) : ℚ :=
  max (6/10) (min (9/10) (3/4 + (t1.rating - t2.rating) / 100))

/-- Team 2's penalty success probability (app.py line 227). -/
def penProb2 (t1 t2 : Team) : ℚ :=
  max (6/10) (min (9/10) (3/4 - (t1.rating - t2.rating) / 100))

/-- Tally of the initial penalty phase (app.py lines 231-237): exactly 5
attempts, one per index 0-4; attempt i succeeds when random.random() < p. -/
def initialTally (p : ℚ) (s : ℕ → ℚ) : ℕ :=
  (List.range 5).countP fun i => s i < p

/-- The sudden-death while-loop (app.py lines 239-243): while the tallies are
equal, both teams take one attempt, consuming draw indices j, j+1, ....  The
Python loop need not terminate on an adversarial random stream, so the
embedding is fuel-bounded and returns none on exhaustion. -/
def suddenDeath (p1 p2 : ℚ) (s1 s2 : ℕ → ℚ) :
    ℕ → ℕ → ℕ → ℕ → Option (ℕ × ℕ)
  | 0, _, t1, t2 => if t1 = t2 then none else some (t1, t2)
  | fuel + 1, j, t1, t2 =>
    if t1 = t2 then
      suddenDeath p1 p2 s1 s2 fuel (j + 1)
        (t1 + if s1 j < p1 then 1 else 0)
        (t2 + if s2 j < p2 then 1 else 0)
    else some (t1, t2)

/-- The full penalty shootout (app.py lines 229-243): initial phase of exactly
5 attempts per side on draw indices 0-4, then sudden death from index 5. -/
def penaltyShootout (p1 p2 : ℚ) (s1 s2 : ℕ → ℚ) (fuel : ℕ) : Option (ℕ × ℕ) :=
  suddenDeath p1 p2 s1 s2 fuel 5 (initialTally p1 s1) (initialTally p2 s2)

/-- Team 1's base expected goals (app.py line 108). -/
def baseGoals1 (t1 t2 : Team) (u : ℚ) : ℚ :=
  max (1/2) (3/2 + (t1.rating - t2.rating) / 20 + u)

/-- Team 2's base expected goals (app.py line 109). -/
def baseGoals2 (t1 t2 : Team) (u : ℚ) : ℚ :=
  max (1/2) (3/2 - (t1.rating - t2.rating) / 20 + u)

/-- Team 1's regulation goal count (app.py line 111): poisson_approx capped
at 7. -/
def regulationGoals1 (t1 t2 : Team) (o : Oracle) : ℕ :=
  min 7 (poisson_approx (baseGoals1 t1 t2 o.u1) o.z1)

/-- Team 2's regulation goal count (app.py line 112). -/
def regulationGoals2 (t1 t2 : Team) (o : Oracle) : ℕ :=
  min 7 (poisson_approx (baseGoals2 t1 t2 o.u2) o.z2)

/-- Team 1's extra-time goal count (app.py line 200): the goal-count model
rerun with base expectation scaled by 0.3 (floored at 0.2), capped at 3. -/
def extraGoals1 (t1 t2 : Team) (o : Oracle) : ℕ :=
  min 3 (poisson_approx (max (1/5) (baseGoals1 t1 t2 o.u1 * (3/10))) o.z3)

/-- Team 2's extra-time goal count (app.py line 201). -/
def extraGoals2 (t1 t2 : Team) (o : Oracle) : ℕ :=
  min 3 (poisson_approx (max (1/5) (baseGoals2 t1 t2 o.u2 * (3/10))) o.z4)

/-- The winner expression of the returned dict (app.py lines 271-276).  `pen`
carries the shootout tallies: the code stores them as the string "t1-t2" and
parses them back with int(penalty_score.split('-')[0]) — for natural-number
tallies the round trip is the identity, so the embedding passes the pair.  A
missing penalty_score is falsy in Python, which the match arm for none
reproduces (team 2 is then picked). -/
def winnerOf (t1 t2 : Team) (g1 g2 : ℕ) (knockout : Bool)
    (pen : Option (ℕ × ℕ)) : String :=
  if g2 < g1 then t1.country
  else if g1 < g2 then t2.country
  else if knockout = true then
    match pen with
    | some (a, b) => if b < a then t1.country else t2.country
    | none => t2.country
  else "Draw"

/-- Renders shootout tallies the way line 244 does: f"{t1}-{t2}". -/
def penString (ab : ℕ × ℕ) : String :=
  toString ab.1 ++ "-" ++ toString ab.2

/-- Assembles the returned dictionary (app.py lines 265-285). -/
def mkResult (t1 t2 : Team) (g1 g2 : ℕ) (knockout : Bool)
    (events : List MatchEvent) (scorers : List GoalScorer)
    (decided : Option String) (pen : Option (ℕ × ℕ)) (et : Bool) : MatchResult :=
  { team1 := t1.country
    team2 := t2.country
    score := toString g1 ++ "-" ++ toString g2
    team1_goals := g1
    team2_goals := g2
    winner := winnerOf t1 t2 g1 g2 knockout pen
    events := events
    goal_scorers := scorers
    decided_by := decided
    penalty_score := pen.map penString
    extra_time := et }

/-- The sorted regulation-time event list (app.py line 179): the detailed
timeline (empty when not detailed, like Python's untouched match_events),
sorted stably by minute. -/
def regEvents (t1 t2 : Team) (detailed : Bool) (o : Oracle) : List MatchEvent :=
  sortEvents
    (if detailed = true then
      (timeline t1 t2 (regulationGoals1 t1 t2 o) (regulationGoals2 t1 t2 o) o
        90 0 0 0 0).1
     else [])

/-- The regulation-time goal-scorer list: the timeline's scorers in detailed
mode, the synthesized entries of app.py lines 182-190 otherwise. -/
def regScorers (t1 t2 : Team) (detailed : Bool) (o : Oracle) : List GoalScorer :=
  if detailed = true then
    (timeline t1 t2 (regulationGoals1 t1 t2 o) (regulationGoals2 t1 t2 o) o
      90 0 0 0 0).2.1
  else
    basicScorers t1 (regulationGoals1 t1 t2 o) o.nd1pick o.nd1min ++
    basicScorers t2 (regulationGoals2 t1 t2 o) o.nd2pick o.nd2min

/-- Extra-time goal events of team 1 (empty when not detailed, app.py
line 204). -/
def etEvents1 (t1 t2 : Team) (detailed : Bool) (o : Oracle) : List MatchEvent :=
  if detailed = true then (etGoals t1 (extraGoals1 t1 t2 o) o.et1min o.et1pick).1
  else []

/-- Extra-time goal events of team 2. -/
def etEvents2 (t1 t2 : Team) (detailed : Bool) (o : Oracle) : List MatchEvent :=
  if detailed = true then (etGoals t2 (extraGoals2 t1 t2 o) o.et2min o.et2pick).1
  else []

/-- Extra-time goal-scorer entries of team 1 (empty when not detailed). -/
def etScorers1 (t1 t2 : Team) (detailed : Bool) (o : Oracle) : List GoalScorer :=
  if detailed = true then (etGoals t1 (extraGoals1 t1 t2 o) o.et1min o.et1pick).2
  else []

/-- Extra-time goal-scorer entries of team 2. -/
def etScorers2 (t1 t2 : Team) (detailed : Bool) (o : Oracle) : List GoalScorer :=
  if detailed = true then (etGoals t2 (extraGoals2 t1 t2 o) o.et2min o.et2pick).2
  else []

/-- The shootout marker event appended at minute 120 in detailed mode
(app.py lines 247-248). -/
def penMarker (detailed : Bool) (ab : ℕ × ℕ) : List MatchEvent :=
  if detailed = true then [⟨120, "penalties", "Both", "Shootout " ++ penString ab⟩]
  else []

/-- simulate_match (app.py lines 103-285).  Draws regulation goal counts,
builds the detailed timeline or the non-detailed scorer list, and resolves
knockout ties with extra time and, if needed, the penalty shootout.  Returns
none only when the sudden-death fuel is exhausted (the Python loop would
still be running). -/
def simulate_match (t1 t2 : Team) (detailed knockout : Bool) (o : Oracle)
    (fuel : ℕ) : Option MatchResult :=
  let g1 := regulationGoals1 t1 t2 o
  let g2 := regulationGoals2 t1 t2 o
  let events0 := regEvents t1 t2 detailed o
  let scorers0 := regScorers t1 t2 detailed o
  if knockout = true ∧ g1 = g2 then
    let events1 := events0 ++ etEvents1 t1 t2 detailed o ++ etEvents2 t1 t2 detailed o
    let scorers1 := scorers0 ++ etScorers1 t1 t2 detailed o ++ etScorers2 t1 t2 detailed o
    let g1e := g1 + extraGoals1 t1 t2 o
    let g2e := g2 + extraGoals2 t1 t2 o
    if g1e ≠ g2e then
      some (mkResult t1 t2 g1e g2e knockout events1 scorers1
              (some "extra_time") none true)
    else
      match penaltyShootout (penProb1 t1 t2) (penProb2 t1 t2) o.pen1 o.pen2 fuel with
      | none => none
      | some ab =>
        some (mkResult t1 t2 g1e g2e knockout (events1 ++ penMarker detailed ab)
                scorers1 (some "penalties") (some ab) true)
  else
    some (mkResult t1 t2 g1 g2 knockout events0 scorers0 none none false)

/-- A match document as seen by the bracket-progression check: round tag,
teams, status, creation timestamp (ISO string, compared lexicographically by
`sorted`), and the winner recorded in its result, i.e.
`(m.get('result') or {}).get('winner')`. -/
structure MatchRec where
  round : String
  team1 : Team
  team2 : Team
  status : String
  created_at : String
  winner : Option String
deriving Repr, DecidableEq

/-- A fixture written back to the matches collection. -/
structure Fixture where
  round : String
  team1 : Team
  team2 : Team
  status : String
  created_at : String
deriving Repr, DecidableEq

/-- `all_completed` of app.py lines 355-356: non-empty and every match
completed. -/
def all_completed (ms : List MatchRec) : Prop :=
  ms ≠ [] ∧ ∀ m ∈ ms, m.status = "completed"

instance (ms : List MatchRec) : Decidable (all_completed ms) :=
  inferInstanceAs (Decidable (_ ∧ _))

/-- Ordering of match documents by creation timestamp, the sort key of
`sorted(..., key=lambda m: m.get('created_at', ''))`. -/
def createdLE (a b : MatchRec) : Prop := a.created_at ≤ b.created_at

instance : DecidableRel createdLE := fun a b =>
  inferInstanceAs (Decidable (a.created_at ≤ b.created_at))

instance : IsTotal MatchRec createdLE := ⟨fun a b => le_total a.created_at b.created_at⟩

instance : IsTrans MatchRec createdLE := ⟨fun _ _ _ => le_trans⟩

/-- Winners of a completed round (app.py lines 360-366 / 380-386): sort the
round's matches by creation time, look each recorded winner country up in the
team store, and keep the hits.  `_get_team_by_country` returns None for a
missing or empty country before querying, which the empty-string guard
reproduces; `find` models the store query itself. -/
def roundWinners (ms : List MatchRec) (find : String → Option Team) : List Team :=
  (List.insertionSort createdLE ms).filterMap fun m =>
    match m.winner with
    | none => none
    | some c => if c = "" then none else find c

/-- _progress_tournament_if_ready (app.py lines 334-397) as a pure function
over a snapshot of the matches collection: returns the fixtures the call adds.
Semifinals are created when all quarterfinals are completed and no semifinal
exists; the final when all semifinals are completed and no final exists.  Both
checks read the same snapshot, so semifinals created by this very call never
trigger final creation within it. -/
def progress_tournament (ms : List MatchRec) (find : String → Option Team)
    (now : String) : List Fixture :=
  let qfs := ms.filter fun m => m.round == "quarterfinal"
  let sfs := ms.filter fun m => m.round == "semifinal"
  let fns := ms.filter fun m => m.round == "final"
  let semis :=
    if all_completed qfs ∧ sfs.length = 0 then
      let ws := roundWinners qfs find
      if 4 ≤ ws.length then
        [⟨"semifinal", ws.getD 0 default, ws.getD 1 default, "scheduled", now⟩,
         ⟨"semifinal", ws.getD 2 default, ws.getD 3 default, "scheduled", now⟩]
      else []
    else []
  let finals :=
    if all_completed sfs ∧ fns.length = 0 then
      let ws := roundWinners sfs find
      if 2 ≤ ws.length then
        [⟨"final", ws.getD 0 default, ws.getD 1 default, "scheduled", now⟩]
      else []
    else []
  semis ++ finals

/-- api_create_tournament (app.py lines 715-736) as a pure function of the
registered teams: the guard only rejects len(teams) < 8 — although its error
message reads "Need exactly 8 teams to create tournament" — then deletes all
existing matches (a store effect outside this pure core) and creates one
quarterfinal per consecutive pair of the FIRST 8 registered teams
(range(0, 8, 2)); teams beyond the eighth are silently ignored. -/
def api_create_tournament (teams : List Team) (now : String) :
    Except String (List Fixture) :=
  if teams.length < 8 then
    Except.error "Need exactly 8 teams to create tournament"
  else
    Except.ok ((List.range 4).map fun i =>
      ⟨"quarterfinal", teams.getD (2 * i) default, teams.getD (2 * i + 1) default,
       "scheduled", now⟩)

/-- The penalty-shootout paragraph of the email body (email_service.py lines
66-70).  When the result was decided by penalties the code evaluates
`result.get('penalty_score', {}).get('team1', 0)`: simulate_match stores
penalty_score as the string "a-b" (app.py line 244), and a Python str has no
`.get`, so the lookup raises AttributeError; only a result lacking the key
altogether would fall back to the empty dict and succeed.  The embedding
returns the raised exception through Except. -/
def penaltyInfo (r : MatchResult) : Except String String :=
  if r.decided_by = some "penalties" then
    match r.penalty_score with
    | some _ => Except.error "AttributeError: str object has no attribute get"
    | none => Except.ok "Decided by penalties: 0 - 0"
  else Except.ok ""

/-- send_match_completion_email (email_service.py lines 11-105).  The whole
body sits in a catch-all try/except that returns False on any exception.  The
function exits False early when the sender credentials are unset or when
neither team document carries an email; otherwise it builds the body — where
`penaltyInfo` may raise — and hands the message to SMTP, whose outcome
(True, or an exception the catch-all turns into False) the `smtpOk` flag
models. -/
def send_match_completion_email (configured : Bool)
    (team1Email team2Email : Option String) (smtpOk : Bool)
    (r : MatchResult) : Bool :=
  if configured = false then false
  else if team1Email.toList ++ team2Email.toList = [] then false
  else
    match penaltyInfo r with
    | Except.error _ => false
    | Except.ok _ => smtpOk

/-- Concrete team used to instantiate the theorems below. -/
def teamA : Team := ⟨"Lions", 70, [⟨"Keeper A", "GK"⟩, ⟨"Mid A", "MD"⟩]⟩

/-- Concrete team used to instantiate the theorems below. -/
def teamB : Team := ⟨"Eagles", 70, [⟨"Keeper B", "GK"⟩, ⟨"Mid B", "MD"⟩]⟩

/-- A concrete draw sequence: every regulation and extra-time gauss draw is 0
(so every goal count is 0), every raw natural draw is 0, every team-1 penalty
attempt scores (roll 0 < p) and every team-2 attempt misses (roll 1 ≥ p). -/
def zeroOracle : Oracle where
  u1 := 0
  u2 := 0
  z1 := 0
  z2 := 0
  inc := fun _ => 0
  att := fun _ => true
  roll := fun _ => 1
  pick := fun _ => 0
  nd1pick := fun _ => 0
  nd1min := fun _ => 0
  nd2pick := fun _ => 0
  nd2min := fun _ => 0
  z3 := 0
  z4 := 0
  et1min := fun _ => 0
  et1pick := fun _ => 0
  et2min := fun _ => 0
  et2pick := fun _ => 0
  pen1 := fun _ => 0
  pen2 := fun _ => 1

/-- Draw sequence for the event-ordering counterexample: regulation ends 0-0,
team 1 scores twice in extra time, first at minute 115 (91 + 24), then at
minute 95 (91 + 4). -/
def oUnsorted : Oracle :=
  { zeroOracle with z3 := 2, et1min := fun k => if k = 0 then 24 else 4 }

/-- Draw sequence for a regulation-decided match: team 1's rounded gauss draw
is 1, team 2's is 0, so regulation ends 1-0. -/
def oRegWin : Oracle := { zeroOracle with z1 := 1 }

/-- Draw sequence for the scorer-undercount counterexample: regulation ends
1-1, extra time adds one goal for team 1 only, final score 2-1. -/
def oEtWin : Oracle := { zeroOracle with z1 := 1, z2 := 1, z3 := 1 }

/-- Nine registered team documents, for the bracket-creation guard. -/
def mkCountry (i : ℕ) : Team := ⟨"Country " ++ toString i, 50, []⟩

/-- A store of nine registered teams: one more than a full bracket. -/
def teams9 : List Team := (List.range 9).map mkCountry

/-- A completed quarterfinal document for the bracket-progression theorems. -/
def mkQF (created : String) (t1 t2 : Team) (w : String) : MatchRec :=
  ⟨"quarterfinal", t1, t2, "completed", created, some w⟩

/-- Concrete snapshot: four completed quarterfinals, no later rounds. -/
def qfSnapshot : List MatchRec :=
  [mkQF "2025-01-01" teamA teamB "Lions", mkQF "2025-01-01" teamA teamB "Eagles",
   mkQF "2025-01-01" teamA teamB "Lions", mkQF "2025-01-01" teamA teamB "Eagles"]

/-- Concrete team store lookup for the bracket-progression theorems. -/
def findAB (c : String) : Option Team :=
  if c = "Lions" then some teamA else if c = "Eagles" then some teamB else none

/-- The result of the non-knockout run on oRegWin: 1-0 in regulation. -/
def rBasic : MatchResult :=
  mkResult teamA teamB 1 0 false [] [⟨5, "Mid A", "Lions"⟩] none none false

/-- The result of the knockout run on zeroOracle: 0-0, penalties 5-0. -/
def rPen : MatchResult :=
  mkResult teamA teamB 0 0 true [] [] (some "penalties") (some (5, 0)) true

/-- The result of the detailed knockout run on oUnsorted: 0-0 after
regulation, two extra-time goals for team 1 at minutes 115 then 95. -/
def rEt : MatchResult :=
  mkResult teamA teamB 2 0 true
    [⟨115, "goal", "Lions", "Mid A"⟩, ⟨95, "goal", "Lions", "Mid A"⟩]
    [⟨115, "Mid A", "Lions"⟩, ⟨95, "Mid A", "Lions"⟩]
    (some "extra_time") none true

/-- The result of the knockout run on oEtWin: 1-1 after regulation, 2-1
after extra time, with only the two regulation scorer entries. -/
def rEtWin : MatchResult :=
  mkResult teamA teamB 2 1 true []
    [⟨5, "Mid A", "Lions"⟩, ⟨5, "Mid B", "Eagles"⟩]
    (some "extra_time") none true

theorem randint_lower (a b n : ℕ) : a ≤ randint a b n := Nat.le_add_right a _

theorem randint_upper {a b : ℕ} (n : ℕ) (h : a ≤ b) : randint a b n ≤ b := by
  have hm : n % (b - a + 1) < b - a + 1 := Nat.mod_lt _ (by omega)
  unfold randint
  omega

theorem suddenDeath_ne {p1 p2 : ℚ} {s1 s2 : ℕ → ℚ} :
    ∀ {fuel j t1 t2 a b}, suddenDeath p1 p2 s1 s2 fuel j t1 t2 = some (a, b) →
      a ≠ b := by
  intro fuel
  induction fuel with
  | zero =>
    intro j t1 t2 a b h
    by_cases ht : t1 = t2
    · simp [suddenDeath, ht] at h
    · simp [suddenDeath, ht] at h
      omega
  | succ n ih =>
    intro j t1 t2 a b h
    by_cases ht : t1 = t2
    · rw [suddenDeath, if_pos ht] at h
      exact ih h
    · rw [suddenDeath, if_neg ht] at h
      simp at h
      omega

theorem suddenDeath_term {p1 p2 : ℚ} {s1 s2 : ℕ → ℚ} :
    ∀ (n j t1 t2 : ℕ), ¬ ((s1 (j + n) < p1) ↔ (s2 (j + n) < p2)) →
      ∃ ab, suddenDeath p1 p2 s1 s2 (n + 1) j t1 t2 = some ab := by
  intro n
  induction n with
  | zero =>
    intro j t1 t2 hd
    by_cases ht : t1 = t2
    · rw [suddenDeath, if_pos ht]
      have hne : (t1 + if s1 j < p1 then 1 else 0) ≠
          (t2 + if s2 j < p2 then 1 else 0) := by
        by_cases h1 : s1 j < p1 <;> by_cases h2 : s2 j < p2
        · exact absurd (iff_of_true h1 h2) hd
        · subst ht
          rw [if_pos h1, if_neg h2]
          omega
        · subst ht
          rw [if_neg h1, if_pos h2]
          omega
        · exact absurd (iff_of_false h1 h2) hd
      rw [suddenDeath, if_neg hne]
      exact ⟨_, rfl⟩
    · rw [suddenDeath, if_neg ht]
      exact ⟨_, rfl⟩
  | succ n ih =>
    intro j t1 t2 hd
    by_cases ht : t1 = t2
    · rw [suddenDeath, if_pos ht]
      exact ih (j + 1) _ _ (by
        have : j + 1 + n = j + (n + 1) := by omega
        rw [this]
        exact hd)
    · rw [suddenDeath, if_neg ht]
      exact ⟨_, rfl⟩

theorem initialTally_le (p : ℚ) (s : ℕ → ℚ) : initialTally p s ≤ 5 := by
  have h : ((List.range 5).countP fun i => decide (s i < p)) ≤
      (List.range 5).length :=
    List.countP_le_length _
  simpa [initialTally] using h

theorem timeline_minute_le (t1 t2 : Team) (g1 g2 : ℕ) (o : Oracle) :
    ∀ (fuel i minute s1 s2 : ℕ),
      ∀ e ∈ (timeline t1 t2 g1 g2 o fuel i minute s1 s2).1, e.minute ≤ 90 := by
  intro fuel
  induction fuel with
  | zero => intro i minute s1 s2 e he; simp [timeline] at he
  | succ n ih =>
    intro i minute s1 s2 e he
    simp only [timeline] at he
    repeat' split at he
    all_goals
      first
        | exact ih _ _ _ _ e he
        | (dsimp only at he
           rw [List.mem_cons] at he
           obtain rfl | he := he
           · dsimp only
             omega
           · exact ih _ _ _ _ e he)
        | simp at he

theorem timeline_count (t1 t2 : Team) (g1 g2 : ℕ) (o : Oracle)
    (hne : t1.country ≠ t2.country) :
    ∀ (fuel i minute s1 s2 : ℕ),
      (timeline t1 t2 g1 g2 o fuel i minute s1 s2).2.2.1 =
          s1 + (timeline t1 t2 g1 g2 o fuel i minute s1 s2).2.1.countP
            (fun gs => gs.team == t1.country) ∧
      (timeline t1 t2 g1 g2 o fuel i minute s1 s2).2.2.2 =
          s2 + (timeline t1 t2 g1 g2 o fuel i minute s1 s2).2.1.countP
            (fun gs => gs.team == t2.country) ∧
      (s1 ≤ g1 → (timeline t1 t2 g1 g2 o fuel i minute s1 s2).2.2.1 ≤ g1) ∧
      (s2 ≤ g2 → (timeline t1 t2 g1 g2 o fuel i minute s1 s2).2.2.2 ≤ g2) := by
  have hb12 : (t1.country == t2.country) = false := by simpa using hne
  have hb21 : (t2.country == t1.country) = false := by simpa using Ne.symm hne
  intro fuel
  induction fuel with
  | zero =>
    intro i minute s1 s2
    simp [timeline]
  | succ n ih =>
    intro i minute s1 s2
    by_cases hatt : o.att i = true
    · simp only [timeline, hatt, if_true]
      repeat' split
      all_goals
        first
          | (simp
             done)
          | (obtain ⟨ih1, ih2, ih3, ih4⟩ :=
               ih (i + 1) (minute + randint 2 10 (o.inc i)) s1 s2
             try dsimp only
             exact ⟨ih1, ih2, ih3, ih4⟩)
          | (rename_i hcond
             obtain ⟨-, hs⟩ := hcond
             obtain ⟨ih1, ih2, ih3, ih4⟩ :=
               ih (i + 1) (minute + randint 2 10 (o.inc i)) (s1 + 1) s2
             dsimp only
             simp only [List.countP_cons, hb12, hb21]
             simp
             refine ⟨by omega, by omega, fun h => by simpa using ih3 (by omega),
               fun h => by simpa using ih4 h⟩)
    · simp only [timeline, hatt, Bool.false_eq_true, if_false]
      repeat' split
      all_goals
        first
          | (simp
             done)
          | (obtain ⟨ih1, ih2, ih3, ih4⟩ :=
               ih (i + 1) (minute + randint 2 10 (o.inc i)) s1 s2
             try dsimp only
             exact ⟨ih1, ih2, ih3, ih4⟩)
          | (rename_i hcond
             obtain ⟨-, hs⟩ := hcond
             obtain ⟨ih1, ih2, ih3, ih4⟩ :=
               ih (i + 1) (minute + randint 2 10 (o.inc i)) s1 (s2 + 1)
             dsimp only
             simp only [List.countP_cons, hb12, hb21]
             simp
             refine ⟨by omega, by omega, fun h => by simpa using ih3 h,
               fun h => by simpa using ih4 (by omega)⟩)

theorem penaltyShootout_term {p1 p2 : ℚ} {s1 s2 : ℕ → ℚ}
    (h : ∃ n, ¬ ((s1 (5 + n) < p1) ↔ (s2 (5 + n) < p2))) :
    ∃ fuel a b, penaltyShootout p1 p2 s1 s2 fuel = some (a, b) ∧ a ≠ b := by
  obtain ⟨n, hn⟩ := h
  obtain ⟨⟨a, b⟩, hab⟩ :=
    @suddenDeath_term p1 p2 s1 s2 n 5
      (initialTally p1 s1) (initialTally p2 s2) hn
  exact ⟨n + 1, a, b, hab, suddenDeath_ne hab⟩

theorem penaltyShootout_ne {p1 p2 : ℚ} {s1 s2 : ℕ → ℚ} {fuel a b : ℕ}
    (h : penaltyShootout p1 p2 s1 s2 fuel = some (a, b)) : a ≠ b :=
  suddenDeath_ne h

theorem timeline_done (t1 t2 : Team) (g1 g2 : ℕ) (o : Oracle)
    (fuel i minute s1 s2 : ℕ) (h : ¬ (minute < 90 ∧ (s1 < g1 ∨ s2 < g2))) :
    timeline t1 t2 g1 g2 o fuel i minute s1 s2 = ([], [], s1, s2) := by
  cases fuel with
  | zero => simp [timeline]
  | succ n => rw [timeline, if_neg h]

theorem timeline_fuel_stable (t1 t2 : Team) (g1 g2 : ℕ) (o : Oracle) :
    ∀ (fuel i minute s1 s2 : ℕ), 90 ≤ minute + 2 * fuel →
      timeline t1 t2 g1 g2 o (fuel + 1) i minute s1 s2 =
        timeline t1 t2 g1 g2 o fuel i minute s1 s2 := by
  intro fuel
  induction fuel with
  | zero =>
    intro i minute s1 s2 h
    rw [timeline_done _ _ _ _ _ _ _ _ _ _ (by omega),
      timeline_done _ _ _ _ _ _ _ _ _ _ (by omega)]
  | succ n ih =>
    intro i minute s1 s2 h
    by_cases hg : minute < 90 ∧ (s1 < g1 ∨ s2 < g2)
    · have hlow := randint_lower 2 10 (o.inc i)
      have key : ∀ a b : ℕ,
          timeline t1 t2 g1 g2 o (n + 1) (i + 1)
            (minute + randint 2 10 (o.inc i)) a b =
          timeline t1 t2 g1 g2 o n (i + 1)
            (minute + randint 2 10 (o.inc i)) a b :=
        fun a b => ih (i + 1) _ a b (by omega)
      conv =>
        lhs
        rw [timeline]
      conv =>
        rhs
        rw [timeline]
      rw [if_pos hg, if_pos hg]
      by_cases hm : 90 < minute + randint 2 10 (o.inc i)
      · rw [if_pos hm, if_pos hm]
      · rw [if_neg hm, if_neg hm]
        simp only [key]
    · rw [timeline_done _ _ _ _ _ _ _ _ _ _ hg,
        timeline_done _ _ _ _ _ _ _ _ _ _ hg]

theorem initialTally_of_lt {p c : ℚ} (h : c < p) :
    initialTally p (fun _ => c) = 5 := by
  unfold initialTally
  rw [List.countP_eq_length.mpr]
  · simp
  · intro i _
    simpa using h

theorem initialTally_of_not_lt {p c : ℚ} (h : ¬ c < p) :
    initialTally p (fun _ => c) = 0 := by
  unfold initialTally
  rw [List.countP_eq_zero.mpr]
  intro i _
  simpa using h

theorem penProb_eval : penProb1 teamA teamB = 3/4 ∧ penProb2 teamA teamB = 3/4 := by
  constructor <;> norm_num [penProb1, penProb2, teamA, teamB]

theorem reg_eval_zero :
    regulationGoals1 teamA teamB zeroOracle = 0 ∧
    regulationGoals2 teamA teamB zeroOracle = 0 ∧
    extraGoals1 teamA teamB zeroOracle = 0 ∧
    extraGoals2 teamA teamB zeroOracle = 0 := by
  refine ⟨?_, ?_, ?_, ?_⟩ <;>
    norm_num [regulationGoals1, regulationGoals2, extraGoals1, extraGoals2,
      baseGoals1, baseGoals2, poisson_approx, teamA, teamB, zeroOracle]

theorem reg_eval_regwin :
    regulationGoals1 teamA teamB oRegWin = 1 ∧
    regulationGoals2 teamA teamB oRegWin = 0 ∧
    extraGoals1 teamA teamB oRegWin = 0 ∧
    extraGoals2 teamA teamB oRegWin = 0 := by
  refine ⟨?_, ?_, ?_, ?_⟩ <;>
    norm_num [regulationGoals1, regulationGoals2, extraGoals1, extraGoals2,
      baseGoals1, baseGoals2, poisson_approx, teamA, teamB, oRegWin, zeroOracle]

theorem reg_eval_unsorted :
    regulationGoals1 teamA teamB oUnsorted = 0 ∧
    regulationGoals2 teamA teamB oUnsorted = 0 ∧
    extraGoals1 teamA teamB oUnsorted = 2 ∧
    extraGoals2 teamA teamB oUnsorted = 0 := by
  refine ⟨?_, ?_, ?_, ?_⟩ <;>
    norm_num [regulationGoals1, regulationGoals2, extraGoals1, extraGoals2,
      baseGoals1, baseGoals2, poisson_approx, teamA, teamB, oUnsorted, zeroOracle]
  all_goals decide

theorem reg_eval_etwin :
    regulationGoals1 teamA teamB oEtWin = 1 ∧
    regulationGoals2 teamA teamB oEtWin = 1 ∧
    extraGoals1 teamA teamB oEtWin = 1 ∧
    extraGoals2 teamA teamB oEtWin = 0 := by
  refine ⟨?_, ?_, ?_, ?_⟩ <;>
    norm_num [regulationGoals1, regulationGoals2, extraGoals1, extraGoals2,
      baseGoals1, baseGoals2, poisson_approx, teamA, teamB, oEtWin, zeroOracle]

theorem run_basic :
    simulate_match teamA teamB false false oRegWin 1 = some rBasic := by
  unfold rBasic
  obtain ⟨e1, e2, e3, e4⟩ := reg_eval_regwin
  have hev : regEvents teamA teamB false oRegWin = [] := by
    simp [regEvents, sortEvents]
  have hsc : regScorers teamA teamB false oRegWin = [⟨5, "Mid A", "Lions"⟩] := by
    rw [regScorers, if_neg (by simp), e1, e2]
    rfl
  unfold simulate_match
  rw [e1, e2, if_neg (by simp), hev, hsc]

theorem run_pen :
    simulate_match teamA teamB false true zeroOracle 1 = some rPen := by
  unfold rPen
  obtain ⟨e1, e2, e3, e4⟩ := reg_eval_zero
  obtain ⟨hp1, hp2⟩ := penProb_eval
  have hev : regEvents teamA teamB false zeroOracle = [] := by
    simp [regEvents, sortEvents]
  have hsc : regScorers teamA teamB false zeroOracle = [] := by
    rw [regScorers, if_neg (by simp), e1, e2]
    rfl
  have ht1 : initialTally (penProb1 teamA teamB) zeroOracle.pen1 = 5 := by
    rw [hp1]
    exact initialTally_of_lt (by norm_num)
  have ht2 : initialTally (penProb2 teamA teamB) zeroOracle.pen2 = 0 := by
    rw [hp2]
    exact initialTally_of_not_lt (by norm_num)
  have hsd : penaltyShootout (penProb1 teamA teamB) (penProb2 teamA teamB)
      zeroOracle.pen1 zeroOracle.pen2 1 = some (5, 0) := by
    unfold penaltyShootout
    rw [ht1, ht2, suddenDeath, if_neg (by omega)]
  unfold simulate_match
  rw [e1, e2, if_pos ⟨rfl, rfl⟩, e3, e4, if_neg (by omega), hsd]
  rw [hev, hsc]
  simp [etEvents1, etEvents2, etScorers1, etScorers2, penMarker]

theorem run_et :
    simulate_match teamA teamB true true oUnsorted 1 = some rEt := by
  unfold rEt
  obtain ⟨e1, e2, e3, e4⟩ := reg_eval_unsorted
  have hev : regEvents teamA teamB true oUnsorted = [] := by
    rw [regEvents, if_pos rfl, e1, e2,
      timeline_done _ _ _ _ _ _ _ _ _ _ (by omega)]
    simp [sortEvents]
  have hsc : regScorers teamA teamB true oUnsorted = [] := by
    rw [regScorers, if_pos rfl, e1, e2,
      timeline_done _ _ _ _ _ _ _ _ _ _ (by omega)]
  have het1 : etEvents1 teamA teamB true oUnsorted =
      [⟨115, "goal", "Lions", "Mid A"⟩, ⟨95, "goal", "Lions", "Mid A"⟩] := by
    rw [etEvents1, if_pos rfl, e3]
    rfl
  have het1s : etScorers1 teamA teamB true oUnsorted =
      [⟨115, "Mid A", "Lions"⟩, ⟨95, "Mid A", "Lions"⟩] := by
    rw [etScorers1, if_pos rfl, e3]
    rfl
  have het2 : etEvents2 teamA teamB true oUnsorted = [] := by
    rw [etEvents2, if_pos rfl, e4]
    rfl
  have het2s : etScorers2 teamA teamB true oUnsorted = [] := by
    rw [etScorers2, if_pos rfl, e4]
    rfl
  unfold simulate_match
  rw [e1, e2, if_pos ⟨rfl, rfl⟩, e3, e4, if_pos (by omega), hev, hsc,
    het1, het1s, het2, het2s]
  simp

theorem run_etwin :
    simulate_match teamA teamB false true oEtWin 1 = some rEtWin := by
  unfold rEtWin
  obtain ⟨e1, e2, e3, e4⟩ := reg_eval_etwin
  have hev : regEvents teamA teamB false oEtWin = [] := by
    simp [regEvents, sortEvents]
  have hsc : regScorers teamA teamB false oEtWin =
      [⟨5, "Mid A", "Lions"⟩, ⟨5, "Mid B", "Eagles"⟩] := by
    rw [regScorers, if_neg (by simp), e1, e2]
    rfl
  unfold simulate_match
  rw [e1, e2, if_pos ⟨rfl, rfl⟩, e3, e4, if_pos (by omega), hev, hsc]
  simp [etEvents1, etEvents2, etScorers1, etScorers2]

theorem simulate_match_spec {t1 t2 : Team} {detailed knockout : Bool}
    {o : Oracle} {fuel : ℕ} {r : MatchResult}
    (h : simulate_match t1 t2 detailed knockout o fuel = some r) :
    (¬ (knockout = true ∧ regulationGoals1 t1 t2 o = regulationGoals2 t1 t2 o) ∧
      r = mkResult t1 t2 (regulationGoals1 t1 t2 o) (regulationGoals2 t1 t2 o)
            knockout (regEvents t1 t2 detailed o) (regScorers t1 t2 detailed o)
            none none false) ∨
    (knockout = true ∧ regulationGoals1 t1 t2 o = regulationGoals2 t1 t2 o ∧
      ((regulationGoals1 t1 t2 o + extraGoals1 t1 t2 o ≠
          regulationGoals2 t1 t2 o + extraGoals2 t1 t2 o ∧
        r = mkResult t1 t2 (regulationGoals1 t1 t2 o + extraGoals1 t1 t2 o)
              (regulationGoals2 t1 t2 o + extraGoals2 t1 t2 o) knockout
              (regEvents t1 t2 detailed o ++ etEvents1 t1 t2 detailed o ++
                etEvents2 t1 t2 detailed o)
              (regScorers t1 t2 detailed o ++ etScorers1 t1 t2 detailed o ++
                etScorers2 t1 t2 detailed o)
              (some "extra_time") none true) ∨
       (regulationGoals1 t1 t2 o + extraGoals1 t1 t2 o =
          regulationGoals2 t1 t2 o + extraGoals2 t1 t2 o ∧
        ∃ ab, penaltyShootout (penProb1 t1 t2) (penProb2 t1 t2) o.pen1 o.pen2 fuel =
            some ab ∧
          r = mkResult t1 t2 (regulationGoals1 t1 t2 o + extraGoals1 t1 t2 o)
                (regulationGoals2 t1 t2 o + extraGoals2 t1 t2 o) knockout
                (regEvents t1 t2 detailed o ++ etEvents1 t1 t2 detailed o ++
                  etEvents2 t1 t2 detailed o ++ penMarker detailed ab)
                (regScorers t1 t2 detailed o ++ etScorers1 t1 t2 detailed o ++
                  etScorers2 t1 t2 detailed o)
                (some "penalties") (some ab) true))) := by
  unfold simulate_match at h
  by_cases hk : knockout = true ∧ regulationGoals1 t1 t2 o = regulationGoals2 t1 t2 o
  · rw [if_pos hk] at h
    by_cases he : regulationGoals1 t1 t2 o + extraGoals1 t1 t2 o ≠
        regulationGoals2 t1 t2 o + extraGoals2 t1 t2 o
    · rw [if_pos he] at h
      exact Or.inr ⟨hk.1, hk.2, Or.inl ⟨he, (Option.some.inj h).symm⟩⟩
    · rw [if_neg he] at h
      rcases hps : penaltyShootout (penProb1 t1 t2) (penProb2 t1 t2) o.pen1 o.pen2 fuel
        with _ | ab
      · rw [hps] at h
        exact absurd h (by simp)
      · rw [hps] at h
        exact Or.inr ⟨hk.1, hk.2, Or.inr ⟨not_ne_iff.mp he, ab, rfl,
          (Option.some.inj h).symm⟩⟩
  · rw [if_neg hk] at h
    exact Or.inl ⟨hk, (Option.some.inj h).symm⟩

theorem winnerOf_knockout (t1 t2 : Team) (g1 g2 : ℕ) (pen : Option (ℕ × ℕ)) :
    winnerOf t1 t2 g1 g2 true pen = t1.country ∨
      winnerOf t1 t2 g1 g2 true pen = t2.country := by
  unfold winnerOf
  by_cases h1 : g2 < g1
  · rw [if_pos h1]
    exact Or.inl rfl
  · rw [if_neg h1]
    by_cases h2 : g1 < g2
    · rw [if_pos h2]
      exact Or.inr rfl
    · rw [if_neg h2, if_pos rfl]
      rcases pen with _ | ⟨a, b⟩
      · exact Or.inr rfl
      · dsimp only
        by_cases hab : b < a
        · rw [if_pos hab]
          exact Or.inl rfl
        · rw [if_neg hab]
          exact Or.inr rfl

theorem etGoals_events_bounds (t : Team) (x : ℕ) (minS pickS : ℕ → ℕ) :
    ∀ e ∈ (etGoals t x minS pickS).1, 91 ≤ e.minute ∧ e.minute ≤ 120 := by
  intro e he
  simp only [etGoals, List.unzip_fst, List.map_map, List.mem_map,
    List.mem_range] at he
  obtain ⟨k, -, rfl⟩ := he
  exact ⟨randint_lower _ _ _, randint_upper _ (by omega)⟩

theorem etGoals_scorers_facts (t : Team) (x : ℕ) (minS pickS : ℕ → ℕ) :
    (etGoals t x minS pickS).2.length = x ∧
      ∀ gs ∈ (etGoals t x minS pickS).2, gs.team = t.country := by
  constructor
  · simp [etGoals]
  · intro gs hgs
    simp only [etGoals, List.unzip_snd, List.map_map, List.mem_map,
      List.mem_range] at hgs
    obtain ⟨k, -, rfl⟩ := hgs
    rfl

theorem basicScorers_facts (t : Team) (g : ℕ) (pickS minS : ℕ → ℕ) :
    (basicScorers t g pickS minS).length = g ∧
      ∀ gs ∈ basicScorers t g pickS minS, gs.team = t.country := by
  constructor
  · simp [basicScorers]
  · intro gs hgs
    simp only [basicScorers, List.mem_map, List.mem_range] at hgs
    obtain ⟨k, -, rfl⟩ := hgs
    rfl

theorem countP_of_all_eq {l : List GoalScorer} {c : String}
    (h : ∀ gs ∈ l, gs.team = c) :
    l.countP (fun gs => gs.team == c) = l.length := by
  apply List.countP_eq_length.mpr
  intro gs hgs
  simpa using h gs hgs

theorem countP_of_all_ne {l : List GoalScorer} {c c2 : String}
    (h : ∀ gs ∈ l, gs.team = c) (hne : c ≠ c2) :
    l.countP (fun gs => gs.team == c2) = 0 := by
  apply List.countP_eq_zero.mpr
  intro gs hgs
  have := h gs hgs
  simp [this, hne]

theorem winnerOf_friendly (t1 t2 : Team) (g1 g2 : ℕ)
    (h1 : t1.country ≠ "Draw") (h2 : t2.country ≠ "Draw") :
    (winnerOf t1 t2 g1 g2 false none = "Draw" ↔ g1 = g2) ∧
    (g2 < g1 → winnerOf t1 t2 g1 g2 false none = t1.country) ∧
    (g1 < g2 → winnerOf t1 t2 g1 g2 false none = t2.country) := by
  unfold winnerOf
  by_cases hA : g2 < g1
  · rw [if_pos hA]
    exact ⟨⟨fun hw => absurd hw h1, fun hg => absurd hg (by omega)⟩,
      fun _ => rfl, fun hg => absurd hg (by omega)⟩
  · rw [if_neg hA]
    by_cases hB : g1 < g2
    · rw [if_pos hB]
      exact ⟨⟨fun hw => absurd hw h2, fun hg => absurd hg (by omega)⟩,
        fun hg => absurd hg (by omega), fun _ => rfl⟩
    · rw [if_neg hB, if_neg (by simp)]
      exact ⟨⟨fun _ => by omega, fun _ => rfl⟩,
        fun hg => absurd hg hA, fun hg => absurd hg hB⟩

/-- C7: for every pair of team ratings and every outcome of the random draws,
each team's regulation goal count from the goal-count model is an integer in
[0, 7] and each team's extra-time goal count is an integer in [0, 3]. -/
theorem claim7_goal_count_bounds (t1 t2 : Team) (o : Oracle) :
    0 ≤ regulationGoals1 t1 t2 o ∧ regulationGoals1 t1 t2 o ≤ 7 ∧
    0 ≤ regulationGoals2 t1 t2 o ∧ regulationGoals2 t1 t2 o ≤ 7 ∧
    0 ≤ extraGoals1 t1 t2 o ∧ extraGoals1 t1 t2 o ≤ 3 ∧
    0 ≤ extraGoals2 t1 t2 o ∧ extraGoals2 t1 t2 o ≤ 3 :=
  ⟨Nat.zero_le _, Nat.min_le_left _ _, Nat.zero_le _, Nat.min_le_left _ _,
   Nat.zero_le _, Nat.min_le_left _ _, Nat.zero_le _, Nat.min_le_left _ _⟩

/-- C9: whenever the penalty shootout is entered, both success probabilities
are clamped into [0.6, 0.9]; the initial phase consists of exactly the 5
attempts at draw indices 0-4 (so each initial tally is at most 5); sudden
death takes one attempt per team per round from index 5 on; and as soon as
some sudden-death round has the two teams' draws land on different sides of
their probabilities — an event of positive probability every round since both
probabilities lie strictly between 0 and 1 — the loop terminates with
distinct tallies. -/
theorem claim9_shootout_structure (t1 t2 : Team) (s1 s2 : ℕ → ℚ)
    (h : ∃ n, ¬ ((s1 (5 + n) < penProb1 t1 t2) ↔ (s2 (5 + n) < penProb2 t1 t2))) :
    (6/10 ≤ penProb1 t1 t2 ∧ penProb1 t1 t2 ≤ 9/10 ∧
     6/10 ≤ penProb2 t1 t2 ∧ penProb2 t1 t2 ≤ 9/10) ∧
    initialTally (penProb1 t1 t2) s1 ≤ 5 ∧
    initialTally (penProb2 t1 t2) s2 ≤ 5 ∧
    ∃ fuel a b,
      penaltyShootout (penProb1 t1 t2) (penProb2 t1 t2) s1 s2 fuel = some (a, b) ∧
      a ≠ b := by
  refine ⟨⟨le_max_left _ _, ?_, le_max_left _ _, ?_⟩,
    initialTally_le _ _, initialTally_le _ _, penaltyShootout_term h⟩
  · exact max_le (by norm_num) (min_le_left _ _)
  · exact max_le (by norm_num) (min_le_left _ _)

theorem claim9_witness :
    (∃ n, ¬ (((fun _ => (0 : ℚ)) (5 + n) < penProb1 teamA teamB) ↔
       ((fun _ => (1 : ℚ)) (5 + n) < penProb2 teamA teamB))) ∧
    ((6/10 ≤ penProb1 teamA teamB ∧ penProb1 teamA teamB ≤ 9/10 ∧
      6/10 ≤ penProb2 teamA teamB ∧ penProb2 teamA teamB ≤ 9/10) ∧
     initialTally (penProb1 teamA teamB) (fun _ => (0 : ℚ)) ≤ 5 ∧
     initialTally (penProb2 teamA teamB) (fun _ => (1 : ℚ)) ≤ 5 ∧
     ∃ fuel a b,
       penaltyShootout (penProb1 teamA teamB) (penProb2 teamA teamB)
         (fun _ => (0 : ℚ)) (fun _ => (1 : ℚ)) fuel = some (a, b) ∧ a ≠ b) := by
  have hh : ∃ n, ¬ (((fun _ => (0 : ℚ)) (5 + n) < penProb1 teamA teamB) ↔
      ((fun _ => (1 : ℚ)) (5 + n) < penProb2 teamA teamB)) :=
    ⟨0, by norm_num [penProb_eval.1, penProb_eval.2]⟩
  exact ⟨hh, claim9_shootout_structure teamA teamB _ _ hh⟩

/-- C5 counterexample: the concrete non-knockout run on oRegWin is decided in
regulation (1-0, no extra time), yet its decided_by field is None — not
"regulation" as the claim requires. -/
theorem claim5_counterexample :
    simulate_match teamA teamB false false oRegWin 1 = some rBasic ∧
    rBasic.extra_time = false ∧
    rBasic.team1_goals = 1 ∧ rBasic.team2_goals = 0 ∧
    rBasic.winner = "Lions" ∧
    rBasic.decided_by ≠ some "regulation" := by
  refine ⟨run_basic, rfl, rfl, rfl, ?_, by simp [rBasic, mkResult]⟩
  norm_num [rBasic, mkResult, winnerOf, teamA]

/-- C5 amended: the decision mode of every simulated match is None,
"extra_time", or "penalties"; a match decided in regulation (equivalently,
one that used no extra time) carries None, never the string "regulation". -/
theorem claim5_amended_decided_by (t1 t2 : Team) (detailed knockout : Bool)
    (o : Oracle) (fuel : ℕ) (r : MatchResult)
    (h : simulate_match t1 t2 detailed knockout o fuel = some r) :
    (r.decided_by = none ∨ r.decided_by = some "extra_time" ∨
      r.decided_by = some "penalties") ∧
    (r.decided_by = none ↔ r.extra_time = false) := by
  rcases simulate_match_spec h with ⟨-, rfl⟩ | ⟨-, -, ⟨-, rfl⟩ | ⟨-, ab, -, rfl⟩⟩ <;>
    simp [mkResult]

theorem claim5_amended_witness :
    (rBasic.decided_by = none ∨ rBasic.decided_by = some "extra_time" ∨
      rBasic.decided_by = some "penalties") ∧
    (rBasic.decided_by = none ↔ rBasic.extra_time = false) :=
  claim5_amended_decided_by teamA teamB false false oRegWin 1 rBasic run_basic

/-- C8: in every non-knockout simulation the returned winner is "Draw"
exactly when the two goal counts are equal, and a team that outscores the
other is returned as the winner. -/
theorem claim8_nonknockout_draw_iff (t1 t2 : Team) (detailed : Bool)
    (o : Oracle) (fuel : ℕ) (r : MatchResult)
    (h1 : t1.country ≠ "Draw") (h2 : t2.country ≠ "Draw")
    (h : simulate_match t1 t2 detailed false o fuel = some r) :
    (r.winner = "Draw" ↔ r.team1_goals = r.team2_goals) ∧
    (r.team2_goals < r.team1_goals → r.winner = t1.country) ∧
    (r.team1_goals < r.team2_goals → r.winner = t2.country) := by
  rcases simulate_match_spec h with ⟨-, rfl⟩ | ⟨hk, -⟩
  · simpa [mkResult] using winnerOf_friendly t1 t2 _ _ h1 h2
  · exact absurd hk (by simp)

theorem claim8_witness :
    teamA.country ≠ "Draw" ∧ teamB.country ≠ "Draw" ∧
    ((rBasic.winner = "Draw" ↔ rBasic.team1_goals = rBasic.team2_goals) ∧
     (rBasic.team2_goals < rBasic.team1_goals → rBasic.winner = teamA.country) ∧
     (rBasic.team1_goals < rBasic.team2_goals → rBasic.winner = teamB.country)) :=
  ⟨by decide, by decide,
   claim8_nonknockout_draw_iff teamA teamB false oRegWin 1 rBasic
     (by decide) (by decide) run_basic⟩

/-- C2: in every knockout simulation that returns (i.e. whose shootout, if
reached, terminates), the winner is one of the two teams — never "Draw"; and
when regulation plus extra time end level (decision mode "penalties"), the
recorded goal totals stay equal, the penalty score is the string "a-b" with
a ≠ b, and the winner is the team with the higher tally. -/
theorem claim2_knockout_decisive (t1 t2 : Team) (detailed : Bool) (o : Oracle)
    (fuel : ℕ) (r : MatchResult)
    (h : simulate_match t1 t2 detailed true o fuel = some r) :
    (r.winner = t1.country ∨ r.winner = t2.country) ∧
    (r.decided_by = some "penalties" →
      r.team1_goals = r.team2_goals ∧
      ∃ a b : ℕ, a ≠ b ∧ r.penalty_score = some (toString a ++ "-" ++ toString b) ∧
        (b < a → r.winner = t1.country) ∧ (a < b → r.winner = t2.country)) := by
  rcases simulate_match_spec h with ⟨-, rfl⟩ |
    ⟨-, heq, ⟨hne, rfl⟩ | ⟨hee, ⟨a, b⟩, hps, rfl⟩⟩
  · constructor
    · simpa [mkResult] using winnerOf_knockout t1 t2 _ _ none
    · intro hd
      simp [mkResult] at hd
  · constructor
    · simpa [mkResult] using winnerOf_knockout t1 t2 _ _ none
    · intro hd
      simp [mkResult] at hd
  · have hab : a ≠ b := penaltyShootout_ne hps
    have hn1 : ¬ (regulationGoals2 t1 t2 o + extraGoals2 t1 t2 o <
        regulationGoals1 t1 t2 o + extraGoals1 t1 t2 o) := by omega
    have hn2 : ¬ (regulationGoals1 t1 t2 o + extraGoals1 t1 t2 o <
        regulationGoals2 t1 t2 o + extraGoals2 t1 t2 o) := by omega
    constructor
    · simpa [mkResult] using winnerOf_knockout t1 t2 _ _ (some (a, b))
    · intro _
      refine ⟨by simpa [mkResult] using hee, a, b, hab,
        by simp [mkResult, penString], ?_, ?_⟩
      · intro hba
        simp only [mkResult]
        unfold winnerOf
        rw [if_neg hn1, if_neg hn2, if_pos rfl]
        dsimp only
        rw [if_pos hba]
      · intro hba
        simp only [mkResult]
        unfold winnerOf
        rw [if_neg hn1, if_neg hn2, if_pos rfl]
        dsimp only
        rw [if_neg (by omega)]

theorem claim2_witness :
    (rPen.winner = teamA.country ∨ rPen.winner = teamB.country) ∧
    (rPen.decided_by = some "penalties" →
      rPen.team1_goals = rPen.team2_goals ∧
      ∃ a b : ℕ, a ≠ b ∧ rPen.penalty_score = some (toString a ++ "-" ++ toString b) ∧
        (b < a → rPen.winner = teamA.country) ∧
        (a < b → rPen.winner = teamB.country)) :=
  claim2_knockout_decisive teamA teamB false zeroOracle 1 rPen run_pen

/-- C10: a match result decided by penalties carries penalty_score as the
string "a-b"; the email body construction calls .get on it as if it were a
mapping, which raises AttributeError on a string; the function's catch-all
turns that into False, so no completion email is ever sent for a
penalties-decided match.  (The embedding is a total Boolean function, which
also reflects that the catch-all lets no exception escape on any input.) -/
theorem claim10_penalties_email_false (cfg : Bool) (e1 e2 : Option String)
    (smtp : Bool) (t1 t2 : Team) (detailed knockout : Bool) (o : Oracle)
    (fuel : ℕ) (r : MatchResult)
    (h : simulate_match t1 t2 detailed knockout o fuel = some r)
    (hp : r.decided_by = some "penalties") :
    send_match_completion_email cfg e1 e2 smtp r = false := by
  obtain ⟨s, hs⟩ : ∃ s, r.penalty_score = some s := by
    rcases simulate_match_spec h with ⟨-, rfl⟩ | ⟨-, -, ⟨-, rfl⟩ | ⟨-, ab, -, rfl⟩⟩
    · simp [mkResult] at hp
    · simp [mkResult] at hp
    · exact ⟨penString ab, by simp [mkResult]⟩
  have hpi : penaltyInfo r =
      Except.error "AttributeError: str object has no attribute get" := by
    unfold penaltyInfo
    rw [if_pos hp, hs]
  unfold send_match_completion_email
  rw [hpi]
  by_cases hc : cfg = false
  · rw [if_pos hc]
  · rw [if_neg hc]
    by_cases hf : e1.toList ++ e2.toList = []
    · rw [if_pos hf]
    · rw [if_neg hf]

theorem claim10_witness :
    send_match_completion_email true (some "federation@example.org") none true
      rPen = false :=
  claim10_penalties_email_false true (some "federation@example.org") none true
    teamA teamB false true zeroOracle 1 rPen run_pen (by simp [rPen, mkResult])

/-- C1 counterexample: a detailed knockout run whose two extra-time goals are
drawn at minutes 115 then 95.  The code sorts the event list at app.py line
179, BEFORE the extra-time block appends these goals, and never sorts again,
so the returned events list [115, 95] is not ordered by minute. -/
theorem claim1_counterexample :
    simulate_match teamA teamB true true oUnsorted 1 = some rEt ∧
    rEt.events.map (fun e => e.minute) = [115, 95] ∧
    ¬ List.Sorted eventLE rEt.events := by
  refine ⟨run_et, by simp [rEt, mkResult], ?_⟩
  simp [rEt, mkResult, List.sorted_cons, eventLE]

/-- C1 amended: in every detailed simulation the returned event list splits
into the regulation part — sorted by minute (stably, at app.py line 179) with
every minute at most 90 — followed by the events appended afterwards
(extra-time goals and the shootout marker), whose minutes all lie in
[91, 120].  The appended suffix is in generation order, not sorted, so the
full list is ordered by minute only when the extra-time draws happen to come
out non-decreasing. -/
theorem claim1_amended_event_order (t1 t2 : Team) (knockout : Bool)
    (o : Oracle) (fuel : ℕ) (r : MatchResult)
    (h : simulate_match t1 t2 true knockout o fuel = some r) :
    ∃ pre post, r.events = pre ++ post ∧ List.Sorted eventLE pre ∧
      (∀ e ∈ pre, e.minute ≤ 90) ∧
      (∀ e ∈ post, 91 ≤ e.minute ∧ e.minute ≤ 120) := by
  have hpre_sorted : List.Sorted eventLE (regEvents t1 t2 true o) := by
    unfold regEvents sortEvents
    exact List.sorted_insertionSort eventLE _
  have hpre_le : ∀ e ∈ regEvents t1 t2 true o, e.minute ≤ 90 := by
    intro e he
    unfold regEvents sortEvents at he
    rw [List.mem_insertionSort, if_pos rfl] at he
    exact timeline_minute_le t1 t2 _ _ o 90 0 0 0 0 e he
  have het1 : ∀ e ∈ etEvents1 t1 t2 true o, 91 ≤ e.minute ∧ e.minute ≤ 120 := by
    intro e he
    rw [etEvents1, if_pos rfl] at he
    exact etGoals_events_bounds _ _ _ _ e he
  have het2 : ∀ e ∈ etEvents2 t1 t2 true o, 91 ≤ e.minute ∧ e.minute ≤ 120 := by
    intro e he
    rw [etEvents2, if_pos rfl] at he
    exact etGoals_events_bounds _ _ _ _ e he
  rcases simulate_match_spec h with ⟨-, rfl⟩ | ⟨-, -, ⟨-, rfl⟩ | ⟨-, ab, -, rfl⟩⟩
  · exact ⟨regEvents t1 t2 true o, [], by simp [mkResult], hpre_sorted, hpre_le,
      by simp⟩
  · refine ⟨regEvents t1 t2 true o,
      etEvents1 t1 t2 true o ++ etEvents2 t1 t2 true o,
      by simp [mkResult, List.append_assoc], hpre_sorted, hpre_le, ?_⟩
    intro e he
    rw [List.mem_append] at he
    rcases he with he | he
    · exact het1 e he
    · exact het2 e he
  · refine ⟨regEvents t1 t2 true o,
      etEvents1 t1 t2 true o ++ etEvents2 t1 t2 true o ++ penMarker true ab,
      by simp [mkResult, List.append_assoc], hpre_sorted, hpre_le, ?_⟩
    intro e he
    simp only [List.mem_append] at he
    rcases he with (he | he) | he
    · exact het1 e he
    · exact het2 e he
    · rw [penMarker, if_pos rfl] at he
      simp only [List.mem_singleton] at he
      subst he
      exact ⟨by norm_num, by norm_num⟩

theorem claim1_amended_witness :
    ∃ pre post, rEt.events = pre ++ post ∧ List.Sorted eventLE pre ∧
      (∀ e ∈ pre, e.minute ≤ 90) ∧
      (∀ e ∈ post, 91 ≤ e.minute ∧ e.minute ≤ 120) :=
  claim1_amended_event_order teamA teamB true oUnsorted 1 rEt run_et

/-- C4 counterexample: a non-detailed knockout run that is 1-1 after
regulation and 2-1 after extra time.  The extra-time block only synthesizes
goal-scorer entries in detailed mode (app.py lines 204-214), so the returned
result credits team 1 with 2 goals but carries only 1 scorer entry for it. -/
theorem claim4_counterexample :
    simulate_match teamA teamB false true oEtWin 1 = some rEtWin ∧
    rEtWin.team1_goals = 2 ∧
    rEtWin.goal_scorers.countP (fun gs => gs.team == "Lions") = 1 ∧
    rEtWin.goal_scorers.countP (fun gs => gs.team == "Lions") ≠
      rEtWin.team1_goals := by
  refine ⟨run_etwin, rfl, ?_, ?_⟩ <;> decide

/-- C4 amended: per-team goal-scorer entries never exceed that team's final
goal total, and in non-detailed mode they equal the team's REGULATION goal
count exactly — hence they equal the final totals only when no extra time was
played.  (In detailed mode the timeline can run out of clock before the
targets are met, and in non-detailed mode extra-time goals get no scorer
entries, so equality with the final totals fails in general.) -/
theorem claim4_amended_scorer_counts (t1 t2 : Team) (detailed knockout : Bool)
    (o : Oracle) (fuel : ℕ) (r : MatchResult)
    (hne : t1.country ≠ t2.country)
    (h : simulate_match t1 t2 detailed knockout o fuel = some r) :
    (r.goal_scorers.countP (fun gs => gs.team == t1.country) ≤ r.team1_goals ∧
     r.goal_scorers.countP (fun gs => gs.team == t2.country) ≤ r.team2_goals) ∧
    (detailed = false →
      r.goal_scorers.countP (fun gs => gs.team == t1.country) =
        regulationGoals1 t1 t2 o ∧
      r.goal_scorers.countP (fun gs => gs.team == t2.country) =
        regulationGoals2 t1 t2 o) ∧
    (detailed = false → r.extra_time = false →
      r.goal_scorers.countP (fun gs => gs.team == t1.country) = r.team1_goals ∧
      r.goal_scorers.countP (fun gs => gs.team == t2.country) = r.team2_goals) := by
  have hbf1 := basicScorers_facts t1 (regulationGoals1 t1 t2 o) o.nd1pick o.nd1min
  have hbf2 := basicScorers_facts t2 (regulationGoals2 t1 t2 o) o.nd2pick o.nd2min
  have hA1 : (regScorers t1 t2 detailed o).countP
        (fun gs => gs.team == t1.country) ≤ regulationGoals1 t1 t2 o ∧
      (detailed = false → (regScorers t1 t2 detailed o).countP
        (fun gs => gs.team == t1.country) = regulationGoals1 t1 t2 o) := by
    by_cases hd : detailed = true
    · obtain ⟨hc1, hc2, hb1, hb2⟩ := timeline_count t1 t2 (regulationGoals1 t1 t2 o)
        (regulationGoals2 t1 t2 o) o hne 90 0 0 0 0
      rw [regScorers, if_pos hd]
      have := hb1 (Nat.zero_le _)
      exact ⟨by omega, fun hdf => by simp [hdf] at hd⟩
    · rw [regScorers, if_neg hd, List.countP_append,
        countP_of_all_eq hbf1.2, countP_of_all_ne hbf2.2 (Ne.symm hne), hbf1.1]
      exact ⟨by omega, fun _ => by omega⟩
  have hA2 : (regScorers t1 t2 detailed o).countP
        (fun gs => gs.team == t2.country) ≤ regulationGoals2 t1 t2 o ∧
      (detailed = false → (regScorers t1 t2 detailed o).countP
        (fun gs => gs.team == t2.country) = regulationGoals2 t1 t2 o) := by
    by_cases hd : detailed = true
    · obtain ⟨hc1, hc2, hb1, hb2⟩ := timeline_count t1 t2 (regulationGoals1 t1 t2 o)
        (regulationGoals2 t1 t2 o) o hne 90 0 0 0 0
      rw [regScorers, if_pos hd]
      have := hb2 (Nat.zero_le _)
      exact ⟨by omega, fun hdf => by simp [hdf] at hd⟩
    · rw [regScorers, if_neg hd, List.countP_append,
        countP_of_all_ne hbf1.2 hne, countP_of_all_eq hbf2.2, hbf2.1]
      exact ⟨by omega, fun _ => by omega⟩
  have hE1 : (etScorers1 t1 t2 detailed o).countP
        (fun gs => gs.team == t1.country) ≤ extraGoals1 t1 t2 o ∧
      (etScorers1 t1 t2 detailed o).countP
        (fun gs => gs.team == t2.country) = 0 ∧
      (detailed = false → (etScorers1 t1 t2 detailed o).countP
        (fun gs => gs.team == t1.country) = 0) := by
    by_cases hd : detailed = true
    · obtain ⟨hlen, hall⟩ :=
        etGoals_scorers_facts t1 (extraGoals1 t1 t2 o) o.et1min o.et1pick
      rw [etScorers1, if_pos hd]
      refine ⟨?_, countP_of_all_ne hall hne, fun hdf => by simp [hdf] at hd⟩
      rw [countP_of_all_eq hall, hlen]
    · rw [etScorers1, if_neg hd]
      simp
  have hE2 : (etScorers2 t1 t2 detailed o).countP
        (fun gs => gs.team == t2.country) ≤ extraGoals2 t1 t2 o ∧
      (etScorers2 t1 t2 detailed o).countP
        (fun gs => gs.team == t1.country) = 0 ∧
      (detailed = false → (etScorers2 t1 t2 detailed o).countP
        (fun gs => gs.team == t2.country) = 0) := by
    by_cases hd : detailed = true
    · obtain ⟨hlen, hall⟩ :=
        etGoals_scorers_facts t2 (extraGoals2 t1 t2 o) o.et2min o.et2pick
      rw [etScorers2, if_pos hd]
      refine ⟨?_, countP_of_all_ne hall (Ne.symm hne), fun hdf => by simp [hdf] at hd⟩
      rw [countP_of_all_eq hall, hlen]
    · rw [etScorers2, if_neg hd]
      simp
  obtain ⟨hA1a, hA1b⟩ := hA1
  obtain ⟨hA2a, hA2b⟩ := hA2
  obtain ⟨hE1a, hE1b, hE1c⟩ := hE1
  obtain ⟨hE2a, hE2b, hE2c⟩ := hE2
  rcases simulate_match_spec h with ⟨-, rfl⟩ |
    ⟨-, heq, ⟨hne2, rfl⟩ | ⟨hee, ab, hps, rfl⟩⟩
  · simp only [mkResult]
    exact ⟨⟨hA1a, hA2a⟩, fun hdf => ⟨hA1b hdf, hA2b hdf⟩,
      fun hdf _ => ⟨hA1b hdf, hA2b hdf⟩⟩
  · simp only [mkResult, List.countP_append]
    refine ⟨⟨by omega, by omega⟩, ?_, ?_⟩
    · intro hdf
      have e1 := hA1b hdf
      have e2 := hA2b hdf
      have e3 := hE1c hdf
      have e4 := hE2c hdf
      constructor <;> omega
    · intro _ hext
      exact absurd hext (by simp)
  · simp only [mkResult, List.countP_append]
    refine ⟨⟨by omega, by omega⟩, ?_, ?_⟩
    · intro hdf
      have e1 := hA1b hdf
      have e2 := hA2b hdf
      have e3 := hE1c hdf
      have e4 := hE2c hdf
      constructor <;> omega
    · intro _ hext
      exact absurd hext (by simp)

theorem claim4_amended_witness :
    teamA.country ≠ teamB.country ∧
    ((rEtWin.goal_scorers.countP (fun gs => gs.team == teamA.country) ≤
        rEtWin.team1_goals ∧
      rEtWin.goal_scorers.countP (fun gs => gs.team == teamB.country) ≤
        rEtWin.team2_goals) ∧
     (false = false →
       rEtWin.goal_scorers.countP (fun gs => gs.team == teamA.country) =
         regulationGoals1 teamA teamB oEtWin ∧
       rEtWin.goal_scorers.countP (fun gs => gs.team == teamB.country) =
         regulationGoals2 teamA teamB oEtWin) ∧
     (false = false → rEtWin.extra_time = false →
       rEtWin.goal_scorers.countP (fun gs => gs.team == teamA.country) =
         rEtWin.team1_goals ∧
       rEtWin.goal_scorers.countP (fun gs => gs.team == teamB.country) =
         rEtWin.team2_goals)) :=
  ⟨by decide,
   claim4_amended_scorer_counts teamA teamB false true oEtWin 1 rEtWin
     (by decide) run_etwin⟩

/-- C6: with exactly four completed quarterfinals (ordered by creation time)
whose winners all resolve in the team store, and no semifinal yet, the
progression check returns exactly the two semifinal fixtures winner(QF1) vs
winner(QF2) and winner(QF3) vs winner(QF4); and whenever any semifinal
already exists in the snapshot, the check emits no semifinal fixture at all
(round-existence idempotence). -/
theorem claim6_bracket_progression (ms : List MatchRec)
    (q1 q2 q3 q4 : MatchRec) (find : String → Option Team) (now : String)
    (W1 W2 W3 W4 : Team) (w1 w2 w3 w4 : String)
    (hqf : ms.filter (fun m => m.round == "quarterfinal") = [q1, q2, q3, q4])
    (hsf : ms.filter (fun m => m.round == "semifinal") = [])
    (hst : q1.status = "completed" ∧ q2.status = "completed" ∧
      q3.status = "completed" ∧ q4.status = "completed")
    (hsort : q1.created_at ≤ q2.created_at ∧ q2.created_at ≤ q3.created_at ∧
      q3.created_at ≤ q4.created_at)
    (hw : q1.winner = some w1 ∧ q2.winner = some w2 ∧ q3.winner = some w3 ∧
      q4.winner = some w4)
    (hwne : w1 ≠ "" ∧ w2 ≠ "" ∧ w3 ≠ "" ∧ w4 ≠ "")
    (hfind : find w1 = some W1 ∧ find w2 = some W2 ∧ find w3 = some W3 ∧
      find w4 = some W4) :
    progress_tournament ms find now =
      [⟨"semifinal", W1, W2, "scheduled", now⟩,
       ⟨"semifinal", W3, W4, "scheduled", now⟩] ∧
    ∀ ms2 : List MatchRec,
      ms2.filter (fun m => m.round == "semifinal") ≠ [] →
        (progress_tournament ms2 find now).filter
          (fun f => f.round == "semifinal") = [] := by
  constructor
  · have hsorted : List.Sorted createdLE [q1, q2, q3, q4] := by
      refine List.sorted_cons.mpr ⟨?_, List.sorted_cons.mpr ⟨?_,
        List.sorted_cons.mpr ⟨?_, List.sorted_singleton q4⟩⟩⟩
      · intro b hb
        simp only [List.mem_cons, List.not_mem_nil, or_false] at hb
        rcases hb with rfl | rfl | rfl
        · exact hsort.1
        · exact le_trans hsort.1 hsort.2.1
        · exact le_trans hsort.1 (le_trans hsort.2.1 hsort.2.2)
      · intro b hb
        simp only [List.mem_cons, List.not_mem_nil, or_false] at hb
        rcases hb with rfl | rfl
        · exact hsort.2.1
        · exact le_trans hsort.2.1 hsort.2.2
      · intro b hb
        simp only [List.mem_singleton] at hb
        subst hb
        exact hsort.2.2
    have hrw : roundWinners [q1, q2, q3, q4] find = [W1, W2, W3, W4] := by
      unfold roundWinners
      rw [List.Sorted.insertionSort_eq hsorted]
      simp [List.filterMap, hw.1, hw.2.1, hw.2.2.1, hw.2.2.2,
        hwne.1, hwne.2.1, hwne.2.2.1, hwne.2.2.2,
        hfind.1, hfind.2.1, hfind.2.2.1, hfind.2.2.2]
    have hac : all_completed [q1, q2, q3, q4] := by
      refine ⟨by simp, ?_⟩
      intro m hm
      simp only [List.mem_cons, List.not_mem_nil, or_false] at hm
      rcases hm with rfl | rfl | rfl | rfl
      · exact hst.1
      · exact hst.2.1
      · exact hst.2.2.1
      · exact hst.2.2.2
    simp only [progress_tournament, hqf, hsf]
    rw [if_pos ⟨hac, rfl⟩, hrw, if_pos (by simp)]
    rw [if_neg (fun hx => hx.1.1 rfl)]
    simp
  · intro ms2 hns
    simp only [progress_tournament]
    rw [if_neg (fun hx => hns (List.length_eq_zero.mp hx.2))]
    simp only [List.nil_append]
    split
    · split
      · simp
      · simp
    · simp

theorem claim6_witness :
    qfSnapshot.filter (fun m => m.round == "quarterfinal") =
      [mkQF "2025-01-01" teamA teamB "Lions",
       mkQF "2025-01-01" teamA teamB "Eagles",
       mkQF "2025-01-01" teamA teamB "Lions",
       mkQF "2025-01-01" teamA teamB "Eagles"] ∧
    qfSnapshot.filter (fun m => m.round == "semifinal") = [] ∧
    (progress_tournament qfSnapshot findAB "T" =
       [⟨"semifinal", teamA, teamB, "scheduled", "T"⟩,
        ⟨"semifinal", teamA, teamB, "scheduled", "T"⟩] ∧
     ∀ ms2 : List MatchRec,
       ms2.filter (fun m => m.round == "semifinal") ≠ [] →
         (progress_tournament ms2 findAB "T").filter
           (fun f => f.round == "semifinal") = []) :=
  ⟨by decide, by decide,
   claim6_bracket_progression qfSnapshot
     (mkQF "2025-01-01" teamA teamB "Lions")
     (mkQF "2025-01-01" teamA teamB "Eagles")
     (mkQF "2025-01-01" teamA teamB "Lions")
     (mkQF "2025-01-01" teamA teamB "Eagles")
     findAB "T" teamA teamB teamA teamB "Lions" "Eagles" "Lions" "Eagles"
     (by decide) (by decide) (by decide) ⟨le_rfl, le_rfl, le_rfl⟩ (by decide)
     (by decide) (by decide)⟩

/-- C3 (code bug): api_create_tournament only rejects FEWER than 8 teams.
With nine registered teams it accepts and creates 4 quarterfinals from the
first eight, although the claim — and the code's own error message "Need
exactly 8 teams to create tournament" — require any count other than 8 to be
rejected.  With exactly 8 teams it does create exactly 4 quarterfinals, and
with 7 it rejects. -/
theorem claim3_team_count_guard :
    api_create_tournament teams9 "T" =
      Except.ok
        [⟨"quarterfinal", mkCountry 0, mkCountry 1, "scheduled", "T"⟩,
         ⟨"quarterfinal", mkCountry 2, mkCountry 3, "scheduled", "T"⟩,
         ⟨"quarterfinal", mkCountry 4, mkCountry 5, "scheduled", "T"⟩,
         ⟨"quarterfinal", mkCountry 6, mkCountry 7, "scheduled", "T"⟩] ∧
    api_create_tournament ((List.range 8).map mkCountry) "T" =
      Except.ok
        [⟨"quarterfinal", mkCountry 0, mkCountry 1, "scheduled", "T"⟩,
         ⟨"quarterfinal", mkCountry 2, mkCountry 3, "scheduled", "T"⟩,
         ⟨"quarterfinal", mkCountry 4, mkCountry 5, "scheduled", "T"⟩,
         ⟨"quarterfinal", mkCountry 6, mkCountry 7, "scheduled", "T"⟩] ∧
    api_create_tournament ((List.range 7).map mkCountry) "T" =
      Except.error "Need exactly 8 teams to create tournament" := by
  refine ⟨rfl, rfl, rfl⟩

end ANL
